import Mathlib

/-!
Shallow embedding of `app/api/events.py` from the open-event-server
repository: the event lifecycle validator (`validate_event`, `validate_date`,
`EventList.before_post`, `EventDetail.before_update_object`), the owner
resolver (`get_id`), the event visibility query builder (`EventList.query`),
and the side-effect dispatcher (`after_create_object`, `start_export_tasks`,
`after_update_object`, `clear_export_urls`), together with theorems settling
the specification claims about them.

Modelling conventions:
* timestamps are `Nat` (Python `datetime` values form a linear order and
  `datetime.timestamp` is monotone, so only the order matters);
* a Python dict value accessed with `.get(key)` is an `Option`: `none`
  stands for "key absent or value `None`" (both are falsy under `.get`);
  `datetime` values and positive ids are always truthy in Python, so
  `isSome` coincides with Python truthiness for those fields;
* Python strings are truthy iff non-empty (`pyTruthyStr` below);
* raised exceptions become `Except.error` carrying an `ApiError`;
* services outside this file's source (JWT identity, `has_access`,
  `safe_query`) enter as explicit parameters or are modelled from the spec
  where noted.
-/

namespace OpenEvent

/-- Role names from `app.models.user` used by the query builder. -/
inductive RoleName where
  | owner
  | organizer
  | coorganizer
  | track_organizer
  | registrar
  | moderator
  | marketer
  | sales_admin
  | attendee
deriving DecidableEq, Repr

/-- Errors raised by the code under study: `ForbiddenError`, `ConflictError`,
`UnprocessableEntityError`, `ObjectNotFound` (each carrying its pointer or
parameter plus message), and an uncaught Python `KeyError` for direct
subscripting of a missing dict key. -/
inductive ApiError where
  | forbidden (message : String)
  | conflict (pointer : String) (message : String)
  | unprocessable (pointer : String) (message : String)
  | notFound (parameter : String) (message : String)
  | pyKeyError (key : String)
deriving DecidableEq, Repr

/-- A persisted `Event` row, restricted to the columns this module reads. -/
structure EventRec where
  id : Nat
  name : String := ""
  state : String := "draft"
  starts_at : Nat := 0
  ends_at : Nat := 0
  deleted_at : Option Nat := none
  schedule_published_on : Option Nat := none
  original_image_url : Option String := none
  ical_url : Option String := none
  xcal_url : Option String := none
  pentabarf_url : Option String := none
  event_type_id : Option Nat := none
  event_topic_id : Option Nat := none
  event_sub_topic_id : Option Nat := none
  discount_code_id : Option Nat := none
  orders : List Nat := []
deriving DecidableEq, Repr

/-- The proposed attribute dict (`data`) of a create or patch request.
`none` models a key that is absent (or explicitly `None`). -/
structure EventData where
  state : Option String := none
  name : Option String := none
  starts_at : Option Nat := none
  ends_at : Option Nat := none
  deleted_at : Option Nat := none
  original_image_url : Option String := none
deriving DecidableEq, Repr

/-- Python truthiness of an optional string: present and non-empty. -/
def pyTruthyStr : Option String → Bool
  | none => false
  | some s => !s.isEmpty

/-- Embedding of `validate_event(user, data)`: the creation/authorization
check.  The capability lookups `user.can_create_event()` and
`user.can_publish_event()` live outside this file and are passed in. -/
def validate_event (canCreate canPublish : Bool) (data : EventData) :
    Except ApiError Unit :=
  if !canCreate then
    Except.error (ApiError.forbidden "Please verify your Email")
  else if data.state == some "published" && !canPublish then
    Except.error (ApiError.forbidden "Only verified accounts can publish events")
  else if !(pyTruthyStr data.name) && data.state == some "published" then
    Except.error (ApiError.conflict "/data/attributes/name"
      "Event Name is required to publish the event")
  else
    Except.ok ()

/-- The in-place fills of `validate_date`: when an existing event is given,
a `starts_at`/`ends_at` key missing from `data` is copied from the event. -/
def fillDates (event : Option EventRec) (data : EventData) : EventData :=
  match event with
  | none => data
  | some ev =>
    let d1 := match data.starts_at with
      | none => { data with starts_at := some ev.starts_at }
      | some _ => data
    match d1.ends_at with
    | none => { d1 with ends_at := some ev.ends_at }
    | some _ => d1

/-- The three errors `validate_date` can raise. -/
def dateFieldsError : ApiError :=
  ApiError.unprocessable "/data/attributes/date" "enter required fields starts-at/ends-at"

/-- Error tagged against `ends-at` for a bad date ordering. -/
def endsAtError : ApiError :=
  ApiError.unprocessable "/data/attributes/ends-at" "ends-at should be after starts-at"

/-- Error tagged against `starts-at` for a start that is not in the future. -/
def startsAtError : ApiError :=
  ApiError.unprocessable "/data/attributes/starts-at"
    "starts-at should be after current date-time"

/-- Embedding of `validate_date(event, data)`: the date-window check.
`now` is the evaluation time (`datetime.now()`).  On success it returns the
(possibly filled and state-coerced) `data` dict; the source mutates the dict
in place. -/
def validate_date (event : Option EventRec) (data : EventData) (now : Nat) :
    Except ApiError EventData :=
  let d := fillDates event data
  match d.starts_at, d.ends_at with
  | some s, some e =>
    if e ≤ s then Except.error endsAtError
    else if s ≤ now then
      match event with
      | some ev =>
        if ev.deleted_at.isSome && d.deleted_at.isNone then
          Except.ok { d with state := some "draft" }
        else if ev.deleted_at.isNone && d.deleted_at.isSome then
          Except.ok d
        else Except.error startsAtError
      | none => Except.error startsAtError
    else Except.ok d
  | _, _ => Except.error dateFieldsError

/-- Embedding of `EventList.before_post`: authorization/name check, then the
date-window check, which is skipped entirely when the proposed state is
`draft`. -/
def before_post (canCreate canPublish : Bool) (data : EventData) (now : Nat) :
    Except ApiError EventData := do
  validate_event canCreate canPublish data
  if data.state != some "draft" then validate_date none data now
  else pure data

/-! ## Owner resolver (`get_id`) -/

/-- The tables the owner resolver reads.  Each owned sub-resource is reduced
to the pair (lookup key, nullable owning `event_id`); the event table maps a
slug (`identifier`) to the event's non-null primary id. -/
structure ResolverDb where
  events_by_identifier : List (String × Nat) := []
  sponsors : List (Nat × Option Nat) := []
  user_favourite_events : List (Nat × Option Nat) := []
  event_copyrights : List (Nat × Option Nat) := []
  tracks : List (Nat × Option Nat) := []
  session_types : List (Nat × Option Nat) := []
  faq_types : List (Nat × Option Nat) := []
  event_invoices : List (Nat × Option Nat) := []
  event_invoices_by_identifier : List (String × Option Nat) := []
  discount_codes : List (Nat × Option Nat) := []
  sessions : List (Nat × Option Nat) := []
  social_links : List (Nat × Option Nat) := []
  taxes : List (Nat × Option Nat) := []
  stripe_authorizations : List (Nat × Option Nat) := []
  speakers_calls : List (Nat × Option Nat) := []
  tickets : List (Nat × Option Nat) := []
  ticket_tags : List (Nat × Option Nat) := []
  role_invites : List (Nat × Option Nat) := []
  users_events_roles : List (Nat × Option Nat) := []
  access_codes : List (Nat × Option Nat) := []
  speakers : List (Nat × Option Nat) := []
  email_notifications : List (Nat × Option Nat) := []
  microlocations : List (Nat × Option Nat) := []
  attendees : List (Nat × Option Nat) := []
  custom_forms : List (Nat × Option Nat) := []
  faqs : List (Nat × Option Nat) := []
  orders_by_identifier : List (String × Option Nat) := []
  feedbacks : List (Nat × Option Nat) := []
deriving Repr

/-- The request's `view_kwargs` dict, restricted to the keys `get_id` and
`EventList.query` read.  `id` is doubly optional: the outer `Option` is
key presence, the inner one the (nullable) resolved event id. -/
structure ViewKwargs where
  id : Option (Option Nat) := none
  identifier : Option String := none
  sponsor_id : Option Nat := none
  user_favourite_event_id : Option Nat := none
  copyright_id : Option Nat := none
  track_id : Option Nat := none
  session_type_id : Option Nat := none
  faq_type_id : Option Nat := none
  event_invoice_id : Option Nat := none
  event_invoice_identifier : Option String := none
  discount_code_id : Option Nat := none
  session_id : Option Nat := none
  social_link_id : Option Nat := none
  tax_id : Option Nat := none
  stripe_authorization_id : Option Nat := none
  user_id : Option Nat := none
  speakers_call_id : Option Nat := none
  ticket_id : Option Nat := none
  ticket_tag_id : Option Nat := none
  role_invite_id : Option Nat := none
  users_events_role_id : Option Nat := none
  access_code_id : Option Nat := none
  speaker_id : Option Nat := none
  email_notification_id : Option Nat := none
  microlocation_id : Option Nat := none
  attendee_id : Option Nat := none
  custom_form_id : Option Nat := none
  faq_id : Option Nat := none
  order_identifier : Option String := none
  feedback_id : Option Nat := none
  user_owner_id : Option Nat := none
  user_organizer_id : Option Nat := none
  user_coorganizer_id : Option Nat := none
  user_track_organizer_id : Option Nat := none
  user_registrar_id : Option Nat := none
  user_moderator_id : Option Nat := none
  user_marketer_id : Option Nat := none
  user_sales_admin_id : Option Nat := none
  event_type_id : Option Nat := none
  event_topic_id : Option Nat := none
  event_sub_topic_id : Option Nat := none
deriving DecidableEq, Repr

/-- Lookup of a sub-resource row by numeric primary key: `none` when no row
exists, otherwise the row's nullable `event_id`. -/
def fetchById (tbl : List (Nat × Option Nat)) (k : Nat) : Option (Option Nat) :=
  (tbl.find? (fun p => p.1 == k)).map (fun p => p.2)

/-- Lookup of a sub-resource row by string identifier. -/
def fetchByIdent (tbl : List (String × Option Nat)) (k : String) :
    Option (Option Nat) :=
  (tbl.find? (fun p => p.1 == k)).map (fun p => p.2)

/-- Modelled from the spec: `safe_query_kwargs` (from `app.api.helpers.db`,
not part of the source under study) fetches a row by key and "if not found,
fail[s] with NotFound (identifying which parameter)".  One `get_id` branch:
when the key is present, fetch the row; on a miss raise `NotFound` naming the
parameter; on a hit set `view_kwargs['id']` to the row's `event_id`, which is
`None` when the owning-event reference is null. -/
def resolveStep (tbl : List (Nat × Option Nat)) (vk : ViewKwargs)
    (key : Option Nat) (param : String) (modelName : String) :
    Except ApiError ViewKwargs :=
  match key with
  | none => Except.ok vk
  | some k =>
    match fetchById tbl k with
    | none => Except.error (ApiError.notFound param
        (modelName ++ ": " ++ toString k ++ " not found"))
    | some eid => Except.ok { vk with id := some eid }

/-- Embedding of `get_id(view_kwargs)`: the owner resolver's branch table, in
source order.  The `users_events_role_id` branch mirrors the source exactly:
it has no `else` arm, so a null owning-event reference leaves `id` untouched.
The `user_id` branch re-fetches a `DiscountCode` by direct subscripting of
`view_kwargs['discount_code_id']`, which is a `KeyError` when that key is
absent. -/
def get_id (rdb : ResolverDb) (vk0 : ViewKwargs) : Except ApiError ViewKwargs := do
  let vk ← match vk0.identifier with
    | none => pure vk0
    | some ident =>
      match (rdb.events_by_identifier.find? (fun p => p.1 == ident)).map (fun p => p.2) with
      | none => Except.error (ApiError.notFound "identifier"
          ("Event: " ++ ident ++ " not found"))
      | some eid => pure { vk0 with id := some (some eid) }
  let vk ← resolveStep rdb.sponsors vk vk.sponsor_id "sponsor_id" "Sponsor"
  let vk ← resolveStep rdb.user_favourite_events vk vk.user_favourite_event_id
    "user_favourite_event_id" "UserFavouriteEvent"
  let vk ← resolveStep rdb.event_copyrights vk vk.copyright_id "copyright_id" "EventCopyright"
  let vk ← resolveStep rdb.tracks vk vk.track_id "track_id" "Track"
  let vk ← resolveStep rdb.session_types vk vk.session_type_id "session_type_id" "SessionType"
  let vk ← resolveStep rdb.faq_types vk vk.faq_type_id "faq_type_id" "FaqType"
  let vk ← resolveStep rdb.event_invoices vk vk.event_invoice_id
    "event_invoice_id" "EventInvoice"
  let vk ← match vk.event_invoice_identifier with
    | none => pure vk
    | some ident =>
      match fetchByIdent rdb.event_invoices_by_identifier ident with
      | none => Except.error (ApiError.notFound "event_invoice_identifier"
          ("EventInvoice: " ++ ident ++ " not found"))
      | some eid => pure { vk with id := some eid }
  let vk ← resolveStep rdb.discount_codes vk vk.discount_code_id
    "discount_code_id" "DiscountCode"
  let vk ← resolveStep rdb.sessions vk vk.session_id "session_id" "Session"
  let vk ← resolveStep rdb.social_links vk vk.social_link_id "social_link_id" "SocialLink"
  let vk ← resolveStep rdb.taxes vk vk.tax_id "tax_id" "Tax"
  let vk ← resolveStep rdb.stripe_authorizations vk vk.stripe_authorization_id
    "stripe_authorization_id" "StripeAuthorization"
  let vk ← match vk.user_id with
    | none => pure vk
    | some _ =>
      match vk.discount_code_id with
      | none => Except.error (ApiError.pyKeyError "discount_code_id")
      | some dc =>
        match fetchById rdb.discount_codes dc with
        | none => Except.error (ApiError.notFound "discount_code_id"
            ("DiscountCode: " ++ toString dc ++ " not found"))
        | some eid => pure { vk with id := some eid }
  let vk ← resolveStep rdb.speakers_calls vk vk.speakers_call_id
    "speakers_call_id" "SpeakersCall"
  let vk ← resolveStep rdb.tickets vk vk.ticket_id "ticket_id" "Ticket"
  let vk ← resolveStep rdb.ticket_tags vk vk.ticket_tag_id "ticket_tag_id" "TicketTag"
  let vk ← resolveStep rdb.role_invites vk vk.role_invite_id "role_invite_id" "RoleInvite"
  let vk ← match vk.users_events_role_id with
    | none => pure vk
    | some k =>
      match fetchById rdb.users_events_roles k with
      | none => Except.error (ApiError.notFound "users_events_role_id"
          ("UsersEventsRoles: " ++ toString k ++ " not found"))
      | some (some eid) => pure { vk with id := some (some eid) }
      | some none => pure vk
  let vk ← resolveStep rdb.access_codes vk vk.access_code_id "access_code_id" "AccessCode"
  let vk ← match vk.speaker_id with
    | none => pure vk
    | some k =>
      match fetchById rdb.speakers k with
      | none => Except.error (ApiError.notFound "speaker_id"
          ("Speaker: " ++ toString k ++ " not found"))
      | some eid => pure { vk with id := some eid }
  let vk ← match vk.email_notification_id with
    | none => pure vk
    | some k =>
      match fetchById rdb.email_notifications k with
      | none => Except.error (ApiError.notFound "email_notification_id"
          ("Email Notification: " ++ toString k ++ " not found"))
      | some eid => pure { vk with id := some eid }
  let vk ← match vk.microlocation_id with
    | none => pure vk
    | some k =>
      match fetchById rdb.microlocations k with
      | none => Except.error (ApiError.notFound "microlocation_id"
          ("Microlocation: " ++ toString k ++ " not found"))
      | some eid => pure { vk with id := some eid }
  let vk ← resolveStep rdb.attendees vk vk.attendee_id "attendee_id" "TicketHolder"
  let vk ← resolveStep rdb.custom_forms vk vk.custom_form_id "custom_form_id" "CustomForms"
  let vk ← resolveStep rdb.faqs vk vk.faq_id "faq_id" "Faq"
  let vk ← match vk.order_identifier with
    | none => pure vk
    | some ident =>
      match fetchByIdent rdb.orders_by_identifier ident with
      | none => Except.error (ApiError.notFound "order_identifier"
          ("Order: " ++ ident ++ " not found"))
      | some eid => pure { vk with id := some eid }
  let vk ← resolveStep rdb.feedbacks vk vk.feedback_id "feedback_id" "Feedback"
  pure vk

/-! ## Visibility filter builder (`EventList.query`) -/

/-- The authenticated caller, as seen through `get_jwt_identity()` /
`current_user`: an id and the `is_staff` flag.  An anonymous request is
`(none : Option Caller)`. -/
structure Caller where
  id : Nat
  is_staff : Bool
deriving DecidableEq, Repr

/-- The database state the query builder reads: the event collection, the
`UsersEventsRoles` join table as (user id, event id, role name) triples, and
the user table (ids only, for `safe_query_kwargs(User, ...)`). -/
structure Db where
  events : List EventRec := []
  roles : List (Nat × Nat × RoleName) := []
  users : List Nat := []
deriving Repr

/-- `join(Event.roles).filter_by(user_id=uid).join(UsersEventsRoles.role)
.filter(cond)` as a predicate: some role assignment of `uid` on the event
satisfies `cond`. -/
def rolesAny (db : Db) (uid eid : Nat) (cond : RoleName → Bool) : Bool :=
  db.roles.any (fun t => t.1 == uid && t.2.1 == eid && cond t.2.2)

/-- Rule 1 of the query builder (`events.py` lines 131-133): anonymous or
non-staff callers are restricted to published events; staff are not. -/
def rule1Base (caller : Option Caller) (e : EventRec) : Bool :=
  if caller.isNone || !((caller.map Caller.is_staff).getD false) then
    e.state == "published"
  else
    true

/-- Rules 1-2 of the query builder: the base published-or-managed predicate.
A logged-in caller's query is unioned with the events where they hold the
coorganizer, organizer or owner role. -/
def basePred (db : Db) (caller : Option Caller) (e : EventRec) : Bool :=
  let q := rule1Base caller e
  match caller with
  | none => q
  | some c =>
    q || rolesAny db c.id e.id (fun r =>
      r == RoleName.coorganizer || r == RoleName.organizer || r == RoleName.owner)

/-- One of the nine user-role scoping branches of `EventList.query`: when the
scoping key is present on a GET request, first check
`has_access('is_user_itself', ...)` (else Forbidden), then fetch the target
user (`safe_query`, NotFound naming `param` on a miss), and chain a
role-membership join-filter onto the query built so far. -/
def scopeStep (db : Db) (q : EventRec → Bool) (target : Option Nat)
    (isUserItself : Nat → Bool) (isGet : Bool) (cond : RoleName → Bool)
    (param : String) : Except ApiError (EventRec → Bool) :=
  match target, isGet with
  | some uid, true =>
    if !(isUserItself uid) then
      Except.error (ApiError.forbidden "Access Forbidden")
    else if db.users.contains uid then
      Except.ok (fun e => q e && rolesAny db uid e.id cond)
    else
      Except.error (ApiError.notFound param ("User: " ++ toString uid ++ " not found"))
  | _, _ => Except.ok q

/-- Embedding of `EventList.query(view_kwargs)` as a predicate builder over
`EventRec`.  `isUserItself` and `isCoorganizer` stand for the corresponding
`has_access` checks; `isGet` for `'GET' in request.method`.  The nine
user-role branches chain onto the accumulated query; the classification and
discount-code branches start a fresh `session.query(Event)`.  The
track-organizer branch passes `user_organizer_id` as the not-found parameter
name, as the source does. -/
def eventListQuery (db : Db) (rdb : ResolverDb) (caller : Option Caller)
    (vk : ViewKwargs) (isUserItself : Nat → Bool)
    (isCoorganizer : Option Nat → Bool) (isGet : Bool) :
    Except ApiError (EventRec → Bool) := do
  let q := basePred db caller
  let q ← scopeStep db q vk.user_id isUserItself isGet
    (fun r => r != RoleName.attendee) "user_id"
  let q ← scopeStep db q vk.user_owner_id isUserItself isGet
    (fun r => r == RoleName.owner) "user_owner_id"
  let q ← scopeStep db q vk.user_organizer_id isUserItself isGet
    (fun r => r == RoleName.organizer) "user_organizer_id"
  let q ← scopeStep db q vk.user_coorganizer_id isUserItself isGet
    (fun r => r == RoleName.coorganizer) "user_coorganizer_id"
  let q ← scopeStep db q vk.user_track_organizer_id isUserItself isGet
    (fun r => r == RoleName.track_organizer) "user_organizer_id"
  let q ← scopeStep db q vk.user_registrar_id isUserItself isGet
    (fun r => r == RoleName.registrar) "user_registrar_id"
  let q ← scopeStep db q vk.user_moderator_id isUserItself isGet
    (fun r => r == RoleName.moderator) "user_moderator_id"
  let q ← scopeStep db q vk.user_marketer_id isUserItself isGet
    (fun r => r == RoleName.marketer) "user_marketer_id"
  let q ← scopeStep db q vk.user_sales_admin_id isUserItself isGet
    (fun r => r == RoleName.sales_admin) "user_sales_admin_id"
  let q := match vk.event_type_id, isGet with
    | some tid, true => fun e => e.event_type_id == some tid
    | _, _ => q
  let q := match vk.event_topic_id, isGet with
    | some tid, true => fun e => e.event_topic_id == some tid
    | _, _ => q
  let q := match vk.event_sub_topic_id, isGet with
    | some tid, true => fun e => e.event_sub_topic_id == some tid
    | _, _ => q
  match vk.discount_code_id, isGet with
  | some dc, true => do
    let vk2 ← get_id rdb vk
    let eid ← match vk2.id with
      | none => Except.error (ApiError.pyKeyError "id")
      | some eid => pure eid
    if !(isCoorganizer eid) then
      Except.error (ApiError.forbidden "Coorganizer access is required")
    else
      pure (fun e => e.discount_code_id == some dc)
  | _, _ => pure q

/-- A `view_kwargs` with no scoping key at all. -/
def emptyVk : ViewKwargs := {}

/-- Whether a built query result includes a given event (false on error). -/
def queryIncludes (res : Except ApiError (EventRec → Bool)) (e : EventRec) : Bool :=
  match res with
  | Except.ok p => p e
  | Except.error _ => false

/-! ## Event detail: get, update, side effects -/

/-- Embedding of `EventDetail.after_get_object`: a draft event fetched by a
caller who is not logged in or not a coorganizer of it is reported as
`ObjectNotFound`, indistinguishable from a missing event. -/
def after_get_object (event : Option EventRec) (logged_in : Bool)
    (isCoorganizer : Nat → Bool) : Except ApiError Unit :=
  match event with
  | some e =>
    if e.state == "draft" then
      if !logged_in || !(isCoorganizer e.id) then
        Except.error (ApiError.notFound "\x7bid\x7d" "Event: not found")
      else Except.ok ()
    else Except.ok ()
  | none => Except.ok ()

/-- Embedding of `EventDetail.before_update_object`: re-validate dates when
the dates change, a draft is being published, or the event is being restored;
apply a `deleted_at` change only for an admin, refusing it (Forbidden) when
the event has orders and the caller is not a super admin; finally decide
whether an image-resize task fires.  Returns the updated event and the
resize-task flag. -/
def before_update_object (event : EventRec) (data : EventData)
    (hasAdmin hasSuperAdmin : Bool) (now : Nat) :
    Except ApiError (EventRec × Bool) := do
  let is_date_updated :=
    (data.starts_at != some event.starts_at) || (data.ends_at != some event.ends_at)
  let is_draft_published :=
    event.state == "draft" && data.state == some "published"
  let is_event_restored :=
    event.deleted_at.isSome && data.deleted_at.isNone
  let data ←
    if is_date_updated || is_draft_published || is_event_restored then
      validate_date (some event) data now
    else pure data
  let event ←
    if hasAdmin && (data.deleted_at != event.deleted_at) then
      if event.orders.length != 0 && !hasSuperAdmin then
        Except.error (ApiError.forbidden "Event associated with orders cannot be deleted")
      else pure { event with deleted_at := data.deleted_at }
    else pure event
  let resize :=
    pyTruthyStr data.original_image_url
      && (data.original_image_url != event.original_image_url)
  pure (event, resize)

/-- The kinds of background task this module submits. -/
inductive TaskKind where
  | export_xcal
  | export_ical
  | export_pentabarf
  | resize_event_images
deriving DecidableEq, Repr

/-- A background job handed to `.delay`: its kind, the event id argument, and
the task handle the submitter returned. -/
structure SubmittedJob where
  kind : TaskKind
  event_id : Nat
  handle : Nat
deriving DecidableEq, Repr

/-- Modelled from the spec: `create_export_job` (from
`app.api.helpers.export_helpers`, not part of the source under study)
"record[s] each returned task handle with its event id". -/
structure ExportJobRecord where
  task_handle : Nat
  event_id : Nat
deriving DecidableEq, Repr

/-- Embedding of `start_export_tasks(event)`: submit the xcal, ical and
pentabarf export tasks in that order and record each handle with the event
id.  Task handles are modelled as consecutive naturals from `h0`; the third
component is the next free handle. -/
def start_export_tasks (event : EventRec) (h0 : Nat) :
    List SubmittedJob × List ExportJobRecord × Nat :=
  let task_xcal : SubmittedJob := { kind := TaskKind.export_xcal, event_id := event.id, handle := h0 }
  let rec_xcal : ExportJobRecord := { task_handle := h0, event_id := event.id }
  let task_ical : SubmittedJob := { kind := TaskKind.export_ical, event_id := event.id, handle := h0 + 1 }
  let rec_ical : ExportJobRecord := { task_handle := h0 + 1, event_id := event.id }
  let task_pentabarf : SubmittedJob :=
    { kind := TaskKind.export_pentabarf, event_id := event.id, handle := h0 + 2 }
  let rec_pentabarf : ExportJobRecord := { task_handle := h0 + 2, event_id := event.id }
  ([task_xcal, task_ical, task_pentabarf], [rec_xcal, rec_ical, rec_pentabarf], h0 + 3)

/-- Embedding of `clear_export_urls(event)`. -/
def clear_export_urls (event : EventRec) : EventRec :=
  { event with ical_url := none, xcal_url := none, pentabarf_url := none }

/-- The observable effects of `EventList.after_create_object`. -/
structure CreateEffects where
  owner_role_created : Bool
  role_invite_created : Bool
  attendee_forms_created : Bool
  jobs : List SubmittedJob
  export_jobs : List ExportJobRecord
  url_clears : Nat
deriving DecidableEq, Repr

/-- Embedding of `EventList.after_create_object`: always create the owner
role assignment, the accepted owner role invite and the compulsory attendee
custom forms; submit the three export tasks when the new event is published
with `schedule_published_on` set; submit one image-resize task when the
payload carries a truthy `original_image_url`.  The creation path never calls
`clear_export_urls`, hence `url_clears := 0`. -/
def after_create_object (event : EventRec) (data : EventData) (h0 : Nat) :
    CreateEffects :=
  let ex :=
    if event.state == "published" && event.schedule_published_on.isSome then
      start_export_tasks event h0
    else ([], [], h0)
  let resizeJobs :=
    if pyTruthyStr data.original_image_url then
      [{ kind := TaskKind.resize_event_images, event_id := event.id, handle := ex.2.2 }]
    else []
  { owner_role_created := true
    role_invite_created := true
    attendee_forms_created := true
    jobs := ex.1 ++ resizeJobs
    export_jobs := ex.2.1
    url_clears := 0 }

/-- The observable effects of `EventDetail.after_update_object`. -/
structure UpdateEffects where
  jobs : List SubmittedJob
  export_jobs : List ExportJobRecord
  event : EventRec
  url_clears : Nat
deriving DecidableEq, Repr

/-- Embedding of `EventDetail.after_update_object`: re-export when the
post-update event is published with `schedule_published_on` set, otherwise
clear the three stored export URLs. -/
def after_update_object (event : EventRec) (h0 : Nat) : UpdateEffects :=
  if event.state == "published" && event.schedule_published_on.isSome then
    let r := start_export_tasks event h0
    { jobs := r.1, export_jobs := r.2.1, event := event, url_clears := 0 }
  else
    { jobs := [], export_jobs := [], event := clear_export_urls event, url_clears := 1 }

/-! ## Spec-side definitions used by the refinement claims -/

/-- The nine user-role scopings of `EventList.query` named by the spec. -/
inductive UserScope where
  | by_user
  | by_owner
  | by_organizer
  | by_coorganizer
  | by_track_organizer
  | by_registrar
  | by_moderator
  | by_marketer
  | by_sales_admin
deriving DecidableEq, Repr

/-- The role filter each scoping applies (`self` keeps every role except
attendee; the others demand exactly one role). -/
def scopeCond : UserScope → RoleName → Bool
  | UserScope.by_user, r => r != RoleName.attendee
  | UserScope.by_owner, r => r == RoleName.owner
  | UserScope.by_organizer, r => r == RoleName.organizer
  | UserScope.by_coorganizer, r => r == RoleName.coorganizer
  | UserScope.by_track_organizer, r => r == RoleName.track_organizer
  | UserScope.by_registrar, r => r == RoleName.registrar
  | UserScope.by_moderator, r => r == RoleName.moderator
  | UserScope.by_marketer, r => r == RoleName.marketer
  | UserScope.by_sales_admin, r => r == RoleName.sales_admin

/-- A `view_kwargs` carrying exactly one user-role scoping key. -/
def mkScopedVk : UserScope → Nat → ViewKwargs
  | UserScope.by_user, t => { user_id := some t }
  | UserScope.by_owner, t => { user_owner_id := some t }
  | UserScope.by_organizer, t => { user_organizer_id := some t }
  | UserScope.by_coorganizer, t => { user_coorganizer_id := some t }
  | UserScope.by_track_organizer, t => { user_track_organizer_id := some t }
  | UserScope.by_registrar, t => { user_registrar_id := some t }
  | UserScope.by_moderator, t => { user_moderator_id := some t }
  | UserScope.by_marketer, t => { user_marketer_id := some t }
  | UserScope.by_sales_admin, t => { user_sales_admin_id := some t }

/-- The numeric-key identifier branches of the owner resolver's table, in
source order. -/
inductive ResolverKey where
  | sponsor_id
  | user_favourite_event_id
  | copyright_id
  | track_id
  | session_type_id
  | faq_type_id
  | event_invoice_id
  | discount_code_id
  | session_id
  | social_link_id
  | tax_id
  | stripe_authorization_id
  | speakers_call_id
  | ticket_id
  | ticket_tag_id
  | role_invite_id
  | users_events_role_id
  | access_code_id
  | speaker_id
  | email_notification_id
  | microlocation_id
  | attendee_id
  | custom_form_id
  | faq_id
  | feedback_id
deriving DecidableEq, Repr

/-- The sub-resource table a resolver key addresses. -/
def keyTable (rdb : ResolverDb) : ResolverKey → List (Nat × Option Nat)
  | ResolverKey.sponsor_id => rdb.sponsors
  | ResolverKey.user_favourite_event_id => rdb.user_favourite_events
  | ResolverKey.copyright_id => rdb.event_copyrights
  | ResolverKey.track_id => rdb.tracks
  | ResolverKey.session_type_id => rdb.session_types
  | ResolverKey.faq_type_id => rdb.faq_types
  | ResolverKey.event_invoice_id => rdb.event_invoices
  | ResolverKey.discount_code_id => rdb.discount_codes
  | ResolverKey.session_id => rdb.sessions
  | ResolverKey.social_link_id => rdb.social_links
  | ResolverKey.tax_id => rdb.taxes
  | ResolverKey.stripe_authorization_id => rdb.stripe_authorizations
  | ResolverKey.speakers_call_id => rdb.speakers_calls
  | ResolverKey.ticket_id => rdb.tickets
  | ResolverKey.ticket_tag_id => rdb.ticket_tags
  | ResolverKey.role_invite_id => rdb.role_invites
  | ResolverKey.users_events_role_id => rdb.users_events_roles
  | ResolverKey.access_code_id => rdb.access_codes
  | ResolverKey.speaker_id => rdb.speakers
  | ResolverKey.email_notification_id => rdb.email_notifications
  | ResolverKey.microlocation_id => rdb.microlocations
  | ResolverKey.attendee_id => rdb.attendees
  | ResolverKey.custom_form_id => rdb.custom_forms
  | ResolverKey.faq_id => rdb.faqs
  | ResolverKey.feedback_id => rdb.feedbacks

/-- The parameter name a resolver key's NotFound carries. -/
def keyParam : ResolverKey → String
  | ResolverKey.sponsor_id => "sponsor_id"
  | ResolverKey.user_favourite_event_id => "user_favourite_event_id"
  | ResolverKey.copyright_id => "copyright_id"
  | ResolverKey.track_id => "track_id"
  | ResolverKey.session_type_id => "session_type_id"
  | ResolverKey.faq_type_id => "faq_type_id"
  | ResolverKey.event_invoice_id => "event_invoice_id"
  | ResolverKey.discount_code_id => "discount_code_id"
  | ResolverKey.session_id => "session_id"
  | ResolverKey.social_link_id => "social_link_id"
  | ResolverKey.tax_id => "tax_id"
  | ResolverKey.stripe_authorization_id => "stripe_authorization_id"
  | ResolverKey.speakers_call_id => "speakers_call_id"
  | ResolverKey.ticket_id => "ticket_id"
  | ResolverKey.ticket_tag_id => "ticket_tag_id"
  | ResolverKey.role_invite_id => "role_invite_id"
  | ResolverKey.users_events_role_id => "users_events_role_id"
  | ResolverKey.access_code_id => "access_code_id"
  | ResolverKey.speaker_id => "speaker_id"
  | ResolverKey.email_notification_id => "email_notification_id"
  | ResolverKey.microlocation_id => "microlocation_id"
  | ResolverKey.attendee_id => "attendee_id"
  | ResolverKey.custom_form_id => "custom_form_id"
  | ResolverKey.faq_id => "faq_id"
  | ResolverKey.feedback_id => "feedback_id"

/-- The model name a resolver key's NotFound message starts with. -/
def keyName : ResolverKey → String
  | ResolverKey.sponsor_id => "Sponsor"
  | ResolverKey.user_favourite_event_id => "UserFavouriteEvent"
  | ResolverKey.copyright_id => "EventCopyright"
  | ResolverKey.track_id => "Track"
  | ResolverKey.session_type_id => "SessionType"
  | ResolverKey.faq_type_id => "FaqType"
  | ResolverKey.event_invoice_id => "EventInvoice"
  | ResolverKey.discount_code_id => "DiscountCode"
  | ResolverKey.session_id => "Session"
  | ResolverKey.social_link_id => "SocialLink"
  | ResolverKey.tax_id => "Tax"
  | ResolverKey.stripe_authorization_id => "StripeAuthorization"
  | ResolverKey.speakers_call_id => "SpeakersCall"
  | ResolverKey.ticket_id => "Ticket"
  | ResolverKey.ticket_tag_id => "TicketTag"
  | ResolverKey.role_invite_id => "RoleInvite"
  | ResolverKey.users_events_role_id => "UsersEventsRoles"
  | ResolverKey.access_code_id => "AccessCode"
  | ResolverKey.speaker_id => "Speaker"
  | ResolverKey.email_notification_id => "Email Notification"
  | ResolverKey.microlocation_id => "Microlocation"
  | ResolverKey.attendee_id => "TicketHolder"
  | ResolverKey.custom_form_id => "CustomForms"
  | ResolverKey.faq_id => "Faq"
  | ResolverKey.feedback_id => "Feedback"

/-- A `view_kwargs` carrying exactly one numeric resolver key. -/
def mkResolverVk : ResolverKey → Nat → ViewKwargs
  | ResolverKey.sponsor_id, k => { sponsor_id := some k }
  | ResolverKey.user_favourite_event_id, k => { user_favourite_event_id := some k }
  | ResolverKey.copyright_id, k => { copyright_id := some k }
  | ResolverKey.track_id, k => { track_id := some k }
  | ResolverKey.session_type_id, k => { session_type_id := some k }
  | ResolverKey.faq_type_id, k => { faq_type_id := some k }
  | ResolverKey.event_invoice_id, k => { event_invoice_id := some k }
  | ResolverKey.discount_code_id, k => { discount_code_id := some k }
  | ResolverKey.session_id, k => { session_id := some k }
  | ResolverKey.social_link_id, k => { social_link_id := some k }
  | ResolverKey.tax_id, k => { tax_id := some k }
  | ResolverKey.stripe_authorization_id, k => { stripe_authorization_id := some k }
  | ResolverKey.speakers_call_id, k => { speakers_call_id := some k }
  | ResolverKey.ticket_id, k => { ticket_id := some k }
  | ResolverKey.ticket_tag_id, k => { ticket_tag_id := some k }
  | ResolverKey.role_invite_id, k => { role_invite_id := some k }
  | ResolverKey.users_events_role_id, k => { users_events_role_id := some k }
  | ResolverKey.access_code_id, k => { access_code_id := some k }
  | ResolverKey.speaker_id, k => { speaker_id := some k }
  | ResolverKey.email_notification_id, k => { email_notification_id := some k }
  | ResolverKey.microlocation_id, k => { microlocation_id := some k }
  | ResolverKey.attendee_id, k => { attendee_id := some k }
  | ResolverKey.custom_form_id, k => { custom_form_id := some k }
  | ResolverKey.faq_id, k => { faq_id := some k }
  | ResolverKey.feedback_id, k => { feedback_id := some k }

/-- The owner-resolver contract written from the spec's words, amended with
the one exception the source forces: fetch the addressed sub-resource, raise
NotFound naming the parameter on a miss, and on a hit set the resolved id to
the sub-resource's (possibly null) owning-event reference — except in the
`users_events_role_id` branch, where a null owning-event reference leaves the
resolved id unchanged. -/
def specResolve (rdb : ResolverDb) (k : ResolverKey) (kid : Nat) :
    Except ApiError ViewKwargs :=
  match fetchById (keyTable rdb k) kid with
  | none => Except.error (ApiError.notFound (keyParam k)
      (keyName k ++ ": " ++ toString kid ++ " not found"))
  | some eid =>
    match k, eid with
    | ResolverKey.users_events_role_id, none => Except.ok (mkResolverVk k kid)
    | _, _ => Except.ok { mkResolverVk k kid with id := some eid }

/-- Whether a `validate_date` outcome is an error tagged against `ends-at`. -/
def isEndsAtErr : Except ApiError EventData → Bool
  | Except.error (ApiError.unprocessable p _) => p == "/data/attributes/ends-at"
  | _ => false

/-! ## Helper lemmas -/

/-- Binding an `Except.ok` just applies the continuation. -/
theorem exbind_ok {α β ε : Type} (a : α) (f : α → Except ε β) :
    (Except.ok a >>= f) = f a := rfl

/-- Binding an `Except.error` propagates the error. -/
theorem exbind_err {α β ε : Type} (e : ε) (f : α → Except ε β) :
    ((Except.error e : Except ε α) >>= f) = Except.error e := rfl

/-- With an existing event, the filled `starts_at` is the proposed one,
falling back to the event's. -/
theorem fillDates_starts (ev : EventRec) (data : EventData) :
    (fillDates (some ev) data).starts_at = some (data.starts_at.getD ev.starts_at) := by
  cases h1 : data.starts_at <;> cases h2 : data.ends_at <;>
    simp [fillDates, h1, h2]

/-- With an existing event, the filled `ends_at` is the proposed one, falling
back to the event's. -/
theorem fillDates_ends (ev : EventRec) (data : EventData) :
    (fillDates (some ev) data).ends_at = some (data.ends_at.getD ev.ends_at) := by
  cases h1 : data.starts_at <;> cases h2 : data.ends_at <;>
    simp [fillDates, h1, h2]

/-- Filling dates does not touch `deleted_at`. -/
theorem fillDates_deleted (ev : EventRec) (data : EventData) :
    (fillDates (some ev) data).deleted_at = data.deleted_at := by
  cases h1 : data.starts_at <;> cases h2 : data.ends_at <;>
    simp [fillDates, h1, h2]

/-- Filling dates does not touch `state`. -/
theorem fillDates_state (ev : EventRec) (data : EventData) :
    (fillDates (some ev) data).state = data.state := by
  cases h1 : data.starts_at <;> cases h2 : data.ends_at <;>
    simp [fillDates, h1, h2]

/-- Filling dates does not touch `original_image_url`. -/
theorem fillDates_image (ev : EventRec) (data : EventData) :
    (fillDates (some ev) data).original_image_url = data.original_image_url := by
  cases h1 : data.starts_at <;> cases h2 : data.ends_at <;>
    simp [fillDates, h1, h2]

/-- With no scoping key at all, `EventList.query` builds exactly the
published-or-managed base predicate of rules 1-2. -/
theorem eventListQuery_empty (db : Db) (rdb : ResolverDb) (caller : Option Caller)
    (isUserItself : Nat → Bool) (isCoorganizer : Option Nat → Bool) (isGet : Bool) :
    eventListQuery db rdb caller emptyVk isUserItself isCoorganizer isGet =
      Except.ok (basePred db caller) := rfl

/-- Characterization of the role-membership join-filter. -/
theorem rolesAny_iff (db : Db) (uid eid : Nat) (cond : RoleName → Bool) :
    rolesAny db uid eid cond = true ↔
      ∃ r, (uid, eid, r) ∈ db.roles ∧ cond r = true := by
  simp only [rolesAny, List.any_eq_true]
  constructor
  · rintro ⟨⟨u, e, r⟩, hmem, hcond⟩
    simp only [Bool.and_eq_true, beq_iff_eq] at hcond
    obtain ⟨⟨hu, he⟩, hc⟩ := hcond
    exact ⟨r, by simpa [hu, he] using hmem, hc⟩
  · rintro ⟨r, hmem, hc⟩
    exact ⟨(uid, eid, r), hmem, by simp [hc]⟩

/-- Reduction of `validate_date` on an existing event once the effective
dates are well ordered and the effective start is not in the future: the
three-way restore / soft-delete / reject branch. -/
theorem validate_date_past_branch (ev : EventRec) (data : EventData) (now : Nat)
    (hlt : data.starts_at.getD ev.starts_at < data.ends_at.getD ev.ends_at)
    (hpast : data.starts_at.getD ev.starts_at ≤ now) :
    validate_date (some ev) data now =
      if ev.deleted_at.isSome && data.deleted_at.isNone then
        Except.ok { fillDates (some ev) data with state := some "draft" }
      else if ev.deleted_at.isNone && data.deleted_at.isSome then
        Except.ok (fillDates (some ev) data)
      else Except.error startsAtError := by
  simp only [validate_date, fillDates_starts, fillDates_ends, fillDates_deleted]
  rw [if_neg (by omega), if_pos hpast]

/-- C1: on an existing event whose effective `starts_at` is not strictly in
the future (and passes the earlier ordering check of the date-window
validator), `validate_date` accepts silently when the change is a pure
soft-delete, coerces the proposed state to `draft` when it is a restore from
soft-delete, and otherwise raises the `starts-at`-tagged validation error;
the past-start rejection never fires in the first two cases. -/
theorem claim1_validate_date_three_way (ev : EventRec) (data : EventData) (now : Nat)
    (hlt : data.starts_at.getD ev.starts_at < data.ends_at.getD ev.ends_at)
    (hpast : data.starts_at.getD ev.starts_at ≤ now) :
    (ev.deleted_at = none → data.deleted_at.isSome = true →
      validate_date (some ev) data now = Except.ok (fillDates (some ev) data))
    ∧ (ev.deleted_at.isSome = true → data.deleted_at = none →
      validate_date (some ev) data now =
        Except.ok { fillDates (some ev) data with state := some "draft" })
    ∧ (¬(ev.deleted_at = none ∧ data.deleted_at.isSome = true) →
      ¬(ev.deleted_at.isSome = true ∧ data.deleted_at = none) →
      validate_date (some ev) data now = Except.error startsAtError) := by
  rw [validate_date_past_branch ev data now hlt hpast]
  refine ⟨?_, ?_, ?_⟩
  · intro h1 h2
    simp [h1, h2]
  · intro h1 h2
    simp [h1, h2]
  · intro h1 h2
    cases hA : ev.deleted_at <;> cases hB : data.deleted_at <;>
      simp_all

/-- Concrete instance of the three-way branch: soft-deleting an event whose
start is in the past is accepted without a date error. -/
theorem claim1_validate_date_three_way_witness :
    validate_date (some { id := 1, starts_at := 5, ends_at := 10 })
        { deleted_at := some 50 } 100 =
      Except.ok (fillDates (some { id := 1, starts_at := 5, ends_at := 10 })
        { deleted_at := some 50 }) :=
  (claim1_validate_date_three_way
    { id := 1, starts_at := 5, ends_at := 10 } { deleted_at := some 50 } 100
    (by decide) (by decide)).1 rfl rfl

/-- C7: with both effective dates present, a pair whose start is not strictly
before its end is rejected with the `ends-at`-tagged unprocessable error, and
a well-ordered pair never produces an `ends-at`-tagged error. -/
theorem claim7_ends_at_ordering (event : Option EventRec) (data : EventData)
    (now s e : Nat) (hs : (fillDates event data).starts_at = some s)
    (he : (fillDates event data).ends_at = some e) :
    (e ≤ s → validate_date event data now = Except.error endsAtError)
    ∧ (s < e → isEndsAtErr (validate_date event data now) = false) := by
  constructor
  · intro h
    simp only [validate_date, hs, he]
    rw [if_pos h]
  · intro h
    simp only [validate_date, hs, he]
    rw [if_neg (by omega)]
    repeat' split
    all_goals rfl

/-- Concrete instances: equal timestamps are rejected against `ends-at`; a
well-ordered pair raises no `ends-at`-tagged error. -/
theorem claim7_ends_at_ordering_witness :
    validate_date none { starts_at := some 5, ends_at := some 5 } 100 =
        Except.error endsAtError
    ∧ isEndsAtErr (validate_date none { starts_at := some 5, ends_at := some 30 } 100) =
        false :=
  ⟨(claim7_ends_at_ordering none { starts_at := some 5, ends_at := some 5 } 100 5 5
      rfl rfl).1 (by decide),
   (claim7_ends_at_ordering none { starts_at := some 5, ends_at := some 30 } 100 5 30
      rfl rfl).2 (by decide)⟩

/-- C10: a draft event fetched through `EventDetail` by a caller who is not
logged in or not a coorganizer of it yields `ObjectNotFound` ("Event: not
found"), not Forbidden, hiding the draft's existence. -/
theorem claim10_draft_hidden_as_not_found (e : EventRec) (logged_in : Bool)
    (isCoorganizer : Nat → Bool) (hdraft : e.state = "draft")
    (h : logged_in = false ∨ isCoorganizer e.id = false) :
    after_get_object (some e) logged_in isCoorganizer =
      Except.error (ApiError.notFound "\x7bid\x7d" "Event: not found") := by
  simp only [after_get_object, hdraft]
  rcases h with h | h <;> simp [h]

/-- Concrete instance: an anonymous fetch of a draft event gets NotFound. -/
theorem claim10_draft_hidden_as_not_found_witness :
    after_get_object (some { id := 3, state := "draft" }) false (fun _ => true) =
      Except.error (ApiError.notFound "\x7bid\x7d" "Event: not found") :=
  claim10_draft_hidden_as_not_found { id := 3, state := "draft" } false (fun _ => true)
    rfl (Or.inl rfl)

/-- `pure` on `Except` is `Except.ok`. -/
theorem expure {α ε : Type} (a : α) : (pure a : Except ε α) = Except.ok a := rfl

/-! ## Concrete fixtures for witnesses and counterexamples -/

/-- An `is_user_itself` check that always authorizes. -/
def uiAll : Nat → Bool := fun _ => true

/-- An `is_coorganizer` check that always refuses. -/
def coNone : Option Nat → Bool := fun _ => false

/-- A published event. -/
def evPub : EventRec := { id := 2, state := "published" }

/-- A draft event managed (owned) by user 1 in `dbW`. -/
def evDraftE : EventRec := { id := 10, state := "draft" }

/-- A draft event user 1 does not manage. -/
def evDraftF : EventRec := { id := 11, state := "draft" }

/-- A non-staff caller. -/
def cW : Caller := { id := 1, is_staff := false }

/-- A staff caller. -/
def staffCW : Caller := { id := 9, is_staff := true }

/-- A small database: two drafts, one published event; user 1 owns event 10. -/
def dbW : Db :=
  { events := [evDraftE, evDraftF, evPub]
    roles := [(1, 10, RoleName.owner)]
    users := [1] }

/-! ## C5: anonymous and non-staff base predicate -/

/-- C5: an anonymous caller's visibility predicate only ever admits
published events; every non-staff caller's rule-1 base predicate is exactly
`state = published`; a staff caller's predicate with no route scoping is
unrestricted. -/
theorem claim5_base_predicate_published (db : Db) (rdb : ResolverDb)
    (iU : Nat → Bool) (iC : Option Nat → Bool) (g : Bool) (c : Caller)
    (e : EventRec) (p : EventRec → Bool) :
    (eventListQuery db rdb none emptyVk iU iC g = Except.ok p →
      p e = true → e.state = "published")
    ∧ (c.is_staff = false → rule1Base (some c) e = (e.state == "published"))
    ∧ (c.is_staff = true →
      eventListQuery db rdb (some c) emptyVk iU iC g = Except.ok p → p e = true) := by
  refine ⟨?_, ?_, ?_⟩
  · intro h hp
    rw [eventListQuery_empty] at h
    injection h with h'
    subst h'
    simpa [basePred, rule1Base] using hp
  · intro hstaff
    simp [rule1Base, hstaff]
  · intro hstaff h
    rw [eventListQuery_empty] at h
    injection h with h'
    subst h'
    simp [basePred, rule1Base, hstaff]

/-- Concrete instances: an event admitted by the anonymous predicate is
published, and a staff caller's unscoped predicate admits a draft event. -/
theorem claim5_base_predicate_published_witness :
    evPub.state = "published" ∧ basePred dbW (some staffCW) evDraftF = true :=
  ⟨(claim5_base_predicate_published dbW {} uiAll coNone true cW evPub
      (basePred dbW none)).1 rfl rfl,
   (claim5_base_predicate_published dbW {} uiAll coNone true staffCW evDraftF
      (basePred dbW (some staffCW))).2.2 rfl rfl⟩

/-! ## C6: authenticated non-staff union -/

/-- C6: with no route scoping, an authenticated non-staff caller's predicate
admits exactly the published events together with the events where the
caller holds the owner, organizer or coorganizer role. -/
theorem claim6_published_union_managed (db : Db) (rdb : ResolverDb)
    (iU : Nat → Bool) (iC : Option Nat → Bool) (g : Bool) (c : Caller)
    (p : EventRec → Bool) (e : EventRec) (hstaff : c.is_staff = false)
    (h : eventListQuery db rdb (some c) emptyVk iU iC g = Except.ok p) :
    p e = true ↔
      (e.state = "published" ∨ ∃ r, (c.id, e.id, r) ∈ db.roles ∧
        (r = RoleName.coorganizer ∨ r = RoleName.organizer ∨ r = RoleName.owner)) := by
  rw [eventListQuery_empty] at h
  injection h with h'
  subst h'
  simp [basePred, rule1Base, hstaff, rolesAny_iff, or_assoc]

/-- Concrete instances: the owned draft event 10 is admitted for caller 1,
the foreign draft event 11 is not, and the published event 2 is. -/
theorem claim6_published_union_managed_witness :
    basePred dbW (some cW) evDraftE = true
    ∧ basePred dbW (some cW) evDraftF = false
    ∧ basePred dbW (some cW) evPub = true := by
  refine ⟨?_, ?_, ?_⟩
  · exact (claim6_published_union_managed dbW {} uiAll coNone true cW
      (basePred dbW (some cW)) evDraftE rfl rfl).mpr
      (Or.inr ⟨RoleName.owner, by decide, Or.inr (Or.inr rfl)⟩)
  · by_contra hcon
    rw [Bool.not_eq_false] at hcon
    have := (claim6_published_union_managed dbW {} uiAll coNone true cW
      (basePred dbW (some cW)) evDraftF rfl rfl).mp hcon
    rcases this with h | ⟨r, hmem, _⟩
    · exact absurd h (by decide)
    · simp [dbW, cW, evDraftF] at hmem
  · exact (claim6_published_union_managed dbW {} uiAll coNone true cW
      (basePred dbW (some cW)) evPub rfl rfl).mpr (Or.inl rfl)

/-! ## C2: user-role scoping intersects, it does not replace -/

/-- The caller and data refuting C2: user 7 is a registrar (only) of draft
event 1, lists their own registrar events, and event 1 is excluded even
though they hold the role, because the scoping branch chains onto the
published-or-managed base query instead of replacing it. -/
def evC2 : EventRec := { id := 1, state := "draft" }

/-- Database for the C2 counterexample. -/
def dbC2 : Db :=
  { events := [evC2], roles := [(7, 1, RoleName.registrar)], users := [7] }

/-- The caller for the C2 counterexample (the target user themself). -/
def cC2 : Caller := { id := 7, is_staff := false }

/-- The route scoping for the C2 counterexample. -/
def vkC2 : ViewKwargs := { user_registrar_id := some 7 }

/-- C2 as stated is false: the authorized registrar-scoped listing excludes
draft event 1 although the target user holds the registrar role on it. -/
theorem claim2_counterexample :
    queryIncludes (eventListQuery dbC2 {} (some cC2) vkC2 uiAll coNone true) evC2 = false
    ∧ rolesAny dbC2 7 evC2.id (fun r => r == RoleName.registrar) = true
    ∧ uiAll 7 = true ∧ evC2.state = "draft" := by
  refine ⟨rfl, rfl, rfl, rfl⟩

/-- C2 amended: for each of the nine user-role scopings, after the
authorization and target-user checks succeed, the built predicate is the
intersection of the caller's rules-1-2 base predicate with "the target user
holds a matching role on the event" — not a replacement. -/
theorem claim2_amended_scoping_intersects (sc : UserScope) (db : Db)
    (rdb : ResolverDb) (c : Caller) (target : Nat) (iU : Nat → Bool)
    (iC : Option Nat → Bool) (hAuth : iU target = true)
    (hUser : db.users.contains target = true) :
    eventListQuery db rdb (some c) (mkScopedVk sc target) iU iC true =
      Except.ok (fun e =>
        basePred db (some c) e && rolesAny db target e.id (scopeCond sc)) := by
  have hmem : target ∈ db.users := by simpa using hUser
  cases sc <;>
    simp [eventListQuery, mkScopedVk, scopeStep, hAuth, hUser, hmem,
      exbind_ok, expure] <;>
    rfl

/-- Concrete instance of the amended C2: the owner-scoped listing for user 1
admits the draft event they own (it is in their base predicate and they hold
the owner role). -/
theorem claim2_amended_scoping_intersects_witness :
    queryIncludes (eventListQuery dbW {} (some cW) (mkScopedVk UserScope.by_owner 1)
      uiAll coNone true) evDraftE = true := by
  rw [claim2_amended_scoping_intersects UserScope.by_owner dbW {} cW 1 uiAll coNone
    rfl rfl]
  rfl

/-! ## C4: the `starts_at < ends_at` invariant is skipped for draft creation -/

/-- A draft-creation payload with `starts_at` after `ends_at`. -/
def c4data : EventData :=
  { state := some "draft", name := some "x", starts_at := some 5, ends_at := some 3 }

/-- C4 as stated is false: creating an event in draft state accepts a payload
whose `starts_at` (5) is not before its `ends_at` (3), because `before_post`
skips the date-window check for drafts. -/
theorem claim4_counterexample :
    before_post true true c4data 100 = Except.ok c4data
    ∧ c4data.starts_at = some 5 ∧ c4data.ends_at = some 3 ∧ ¬(5 < 3) := by
  exact ⟨rfl, rfl, rfl, by decide⟩

/-- C4 amended: creation of a non-draft event accepts only payloads whose
`starts_at` is strictly before `ends_at` (and strictly in the future); draft
creation performs no date validation at all, so the `starts_at < ends_at`
invariant is not enforced there. -/
theorem claim4_amended_nondraft_creation_ordered (canCreate canPublish : Bool)
    (data : EventData) (now : Nat) (d' : EventData)
    (hstate : data.state ≠ some "draft")
    (h : before_post canCreate canPublish data now = Except.ok d') :
    d'.starts_at.isSome = true ∧ d'.ends_at.isSome = true
    ∧ d'.starts_at.getD 0 < d'.ends_at.getD 0
    ∧ now < d'.starts_at.getD 0 := by
  simp only [before_post] at h
  cases hve : validate_event canCreate canPublish data with
  | error a => rw [hve, exbind_err] at h; cases h
  | ok u =>
    rw [hve, exbind_ok, if_pos (bne_iff_ne.mpr hstate)] at h
    simp only [validate_date, fillDates] at h
    cases hs : data.starts_at with
    | none => rw [hs] at h; cases he : data.ends_at <;> rw [he] at h <;> cases h
    | some s =>
      cases he : data.ends_at with
      | none => rw [hs, he] at h; cases h
      | some e =>
        rw [hs, he] at h
        change (if e ≤ s then Except.error endsAtError
          else if s ≤ now then Except.error startsAtError
          else Except.ok data) = Except.ok d' at h
        by_cases h1 : e ≤ s
        · rw [if_pos h1] at h; cases h
        · rw [if_neg h1] at h
          by_cases h2 : s ≤ now
          · rw [if_pos h2] at h; cases h
          · rw [if_neg h2] at h
            injection h with h'
            subst h'
            simp [hs, he]
            omega

/-- A valid published-creation payload. -/
def c4good : EventData :=
  { state := some "published", name := some "x", starts_at := some 200,
    ends_at := some 300 }

/-- Concrete instance of the amended C4: a valid published-creation payload
passes and indeed has ordered, future dates. -/
theorem claim4_amended_nondraft_creation_ordered_witness :
    c4good.starts_at.isSome = true ∧ c4good.ends_at.isSome = true
    ∧ c4good.starts_at.getD 0 < c4good.ends_at.getD 0
    ∧ 100 < c4good.starts_at.getD 0 :=
  claim4_amended_nondraft_creation_ordered true true c4good 100 c4good
    (by decide) rfl

/-! ## C8: deleting an event with orders -/

/-- A dateless patch that soft-deletes an event with well-ordered dates
passes the date-window check (the soft-delete exemption applies when the
start lies in the past). -/
theorem validate_date_soft_delete_ok (event : EventRec) (data : EventData)
    (now dtime : Nat) (hs : data.starts_at = none) (he : data.ends_at = none)
    (hlt : event.starts_at < event.ends_at) (hdel : event.deleted_at = none)
    (hd : data.deleted_at = some dtime) :
    validate_date (some event) data now = Except.ok (fillDates (some event) data) := by
  by_cases hnow : event.starts_at ≤ now
  · rw [validate_date_past_branch event data now (by simp [hs, he, hlt])
      (by simp [hs, hnow])]
    simp [hdel, hd]
  · simp only [validate_date, fillDates_starts, fillDates_ends, hs, he,
      Option.getD_none]
    rw [if_neg (by omega), if_neg hnow]

/-- C8: soft-deleting an event that has at least one order is Forbidden for
an ordinary admin and succeeds — the `deleted_at` change is applied — for a
super admin.  The hypotheses put the patch on the happy path of the date
validator (no proposed dates, well-ordered stored dates). -/
theorem claim8_delete_with_orders (event : EventRec) (data : EventData)
    (now dtime : Nat) (hs : data.starts_at = none) (he : data.ends_at = none)
    (hlt : event.starts_at < event.ends_at) (hdel : event.deleted_at = none)
    (hd : data.deleted_at = some dtime) (horders : event.orders ≠ [])
    (himg : data.original_image_url = none) :
    before_update_object event data true false now =
        Except.error (ApiError.forbidden "Event associated with orders cannot be deleted")
    ∧ before_update_object event data true true now =
        Except.ok ({ event with deleted_at := some dtime }, false) := by
  have hval := validate_date_soft_delete_ok event data now dtime hs he hlt hdel hd
  have hb1 : (data.starts_at != some event.starts_at) = true := by
    rw [hs]; rfl
  have hb2 : ((fillDates (some event) data).deleted_at != event.deleted_at) = true := by
    rw [fillDates_deleted, hd, hdel]; rfl
  have hlen : (event.orders.length != 0) = true := by
    cases horder2 : event.orders with
    | nil => exact absurd horder2 horders
    | cons a l => simp
  have himg2 : pyTruthyStr (fillDates (some event) data).original_image_url = false := by
    rw [fillDates_image, himg]; rfl
  have hne : some dtime ≠ event.deleted_at := by rw [hdel]; simp
  constructor
  · simp [before_update_object, hb1, hval, exbind_ok, hb2, hlen,
      fillDates_deleted, hd, hne]
  · simp [before_update_object, hb1, hval, exbind_ok, hb2, hlen, himg2,
      fillDates_deleted, hd, hne]
    rfl

/-- Event and patch for the C8 witness: one order, dateless soft-delete. -/
def ev8 : EventRec := { id := 4, starts_at := 1, ends_at := 2, orders := [1] }

/-- The soft-delete patch for the C8 witness. -/
def data8 : EventData := { deleted_at := some 7 }

/-- Concrete instance of C8: ordinary admin Forbidden, super admin applies
the deletion. -/
theorem claim8_delete_with_orders_witness :
    before_update_object ev8 data8 true false 100 =
        Except.error (ApiError.forbidden "Event associated with orders cannot be deleted")
    ∧ before_update_object ev8 data8 true true 100 =
        Except.ok ({ ev8 with deleted_at := some 7 }, false) :=
  claim8_delete_with_orders ev8 data8 100 7 rfl rfl (by decide) rfl rfl
    (by decide) rfl

/-! ## C9: creation side effects for a published, scheduled event with an
image -/

/-- C9: creating an event that is already published with
`schedule_published_on` set and a truthy cover-image URL submits exactly the
three export jobs (xcal, ical, pentabarf) plus one resize job — four jobs —
records each export task handle with the event id, and performs zero
export-URL clears. -/
theorem claim9_creation_side_effects (event : EventRec) (data : EventData)
    (h0 : Nat) (hpub : event.state = "published")
    (hsch : event.schedule_published_on.isSome = true)
    (himg : pyTruthyStr data.original_image_url = true) :
    (after_create_object event data h0).jobs =
      [ { kind := TaskKind.export_xcal, event_id := event.id, handle := h0 },
        { kind := TaskKind.export_ical, event_id := event.id, handle := h0 + 1 },
        { kind := TaskKind.export_pentabarf, event_id := event.id, handle := h0 + 2 },
        { kind := TaskKind.resize_event_images, event_id := event.id, handle := h0 + 3 } ]
    ∧ (after_create_object event data h0).jobs.length = 4
    ∧ (after_create_object event data h0).export_jobs =
      [ { task_handle := h0, event_id := event.id },
        { task_handle := h0 + 1, event_id := event.id },
        { task_handle := h0 + 2, event_id := event.id } ]
    ∧ (after_create_object event data h0).url_clears = 0 := by
  refine ⟨?_, ?_, ?_, ?_⟩ <;>
    simp [after_create_object, start_export_tasks, hpub, hsch, himg]

/-- Event and payload for the C9 witness. -/
def ev9 : EventRec := { id := 6, state := "published", schedule_published_on := some 1 }

/-- Creation payload with a cover-image URL for the C9 witness. -/
def data9 : EventData := { original_image_url := some "u" }

/-- Concrete instance of C9 at handle counter 0. -/
theorem claim9_creation_side_effects_witness :
    (after_create_object ev9 data9 0).jobs =
      [ { kind := TaskKind.export_xcal, event_id := 6, handle := 0 },
        { kind := TaskKind.export_ical, event_id := 6, handle := 1 },
        { kind := TaskKind.export_pentabarf, event_id := 6, handle := 2 },
        { kind := TaskKind.resize_event_images, event_id := 6, handle := 3 } ]
    ∧ (after_create_object ev9 data9 0).jobs.length = 4
    ∧ (after_create_object ev9 data9 0).export_jobs =
      [ { task_handle := 0, event_id := 6 },
        { task_handle := 1, event_id := 6 },
        { task_handle := 2, event_id := 6 } ]
    ∧ (after_create_object ev9 data9 0).url_clears = 0 :=
  claim9_creation_side_effects ev9 data9 0 rfl rfl rfl

/-! ## C3: the owner resolver's orphan handling -/

/-- Resolver database for the C3 counterexample: a `UsersEventsRoles` row
with id 5 whose owning-event reference is null. -/
def rdbC3 : ResolverDb := { users_events_roles := [(5, none)] }

/-- The request addressing that row. -/
def vkC3 : ViewKwargs := { users_events_role_id := some 5 }

/-- C3 as stated is false: the `users_events_role_id` branch finds the row,
sees its null owning-event reference, and leaves the resolved id untouched
(here: absent) instead of setting it to null, unlike every other branch. -/
theorem claim3_counterexample :
    get_id rdbC3 vkC3 = Except.ok vkC3
    ∧ fetchById rdbC3.users_events_roles 5 = some none
    ∧ vkC3.id ≠ some none := by
  refine ⟨rfl, rfl, by decide⟩

set_option maxHeartbeats 1600000 in
/-- The resolver contract over the numeric identifier keys: fetch, NotFound
naming the parameter on a miss, resolved id set to the row's nullable
owning-event reference, with the `users_events_role_id` exception. -/
theorem get_id_numeric_key_contract (k : ResolverKey) (rdb : ResolverDb)
    (kid : Nat) :
    get_id rdb (mkResolverVk k kid) = specResolve rdb k kid := by
  cases k
  case sponsor_id =>
    cases hf : fetchById rdb.sponsors kid <;>
      simp only [get_id, specResolve, mkResolverVk, resolveStep, keyTable, keyParam,
        keyName, hf, exbind_ok, exbind_err, expure]
  case user_favourite_event_id =>
    cases hf : fetchById rdb.user_favourite_events kid <;>
      simp only [get_id, specResolve, mkResolverVk, resolveStep, keyTable, keyParam,
        keyName, hf, exbind_ok, exbind_err, expure]
  case copyright_id =>
    cases hf : fetchById rdb.event_copyrights kid <;>
      simp only [get_id, specResolve, mkResolverVk, resolveStep, keyTable, keyParam,
        keyName, hf, exbind_ok, exbind_err, expure]
  case track_id =>
    cases hf : fetchById rdb.tracks kid <;>
      simp only [get_id, specResolve, mkResolverVk, resolveStep, keyTable, keyParam,
        keyName, hf, exbind_ok, exbind_err, expure]
  case session_type_id =>
    cases hf : fetchById rdb.session_types kid <;>
      simp only [get_id, specResolve, mkResolverVk, resolveStep, keyTable, keyParam,
        keyName, hf, exbind_ok, exbind_err, expure]
  case faq_type_id =>
    cases hf : fetchById rdb.faq_types kid <;>
      simp only [get_id, specResolve, mkResolverVk, resolveStep, keyTable, keyParam,
        keyName, hf, exbind_ok, exbind_err, expure]
  case event_invoice_id =>
    cases hf : fetchById rdb.event_invoices kid <;>
      simp only [get_id, specResolve, mkResolverVk, resolveStep, keyTable, keyParam,
        keyName, hf, exbind_ok, exbind_err, expure]
  case discount_code_id =>
    cases hf : fetchById rdb.discount_codes kid <;>
      simp only [get_id, specResolve, mkResolverVk, resolveStep, keyTable, keyParam,
        keyName, hf, exbind_ok, exbind_err, expure]
  case session_id =>
    cases hf : fetchById rdb.sessions kid <;>
      simp only [get_id, specResolve, mkResolverVk, resolveStep, keyTable, keyParam,
        keyName, hf, exbind_ok, exbind_err, expure]
  case social_link_id =>
    cases hf : fetchById rdb.social_links kid <;>
      simp only [get_id, specResolve, mkResolverVk, resolveStep, keyTable, keyParam,
        keyName, hf, exbind_ok, exbind_err, expure]
  case tax_id =>
    cases hf : fetchById rdb.taxes kid <;>
      simp only [get_id, specResolve, mkResolverVk, resolveStep, keyTable, keyParam,
        keyName, hf, exbind_ok, exbind_err, expure]
  case stripe_authorization_id =>
    cases hf : fetchById rdb.stripe_authorizations kid <;>
      simp only [get_id, specResolve, mkResolverVk, resolveStep, keyTable, keyParam,
        keyName, hf, exbind_ok, exbind_err, expure]
  case speakers_call_id =>
    cases hf : fetchById rdb.speakers_calls kid <;>
      simp only [get_id, specResolve, mkResolverVk, resolveStep, keyTable, keyParam,
        keyName, hf, exbind_ok, exbind_err, expure]
  case ticket_id =>
    cases hf : fetchById rdb.tickets kid <;>
      simp only [get_id, specResolve, mkResolverVk, resolveStep, keyTable, keyParam,
        keyName, hf, exbind_ok, exbind_err, expure]
  case ticket_tag_id =>
    cases hf : fetchById rdb.ticket_tags kid <;>
      simp only [get_id, specResolve, mkResolverVk, resolveStep, keyTable, keyParam,
        keyName, hf, exbind_ok, exbind_err, expure]
  case role_invite_id =>
    cases hf : fetchById rdb.role_invites kid <;>
      simp only [get_id, specResolve, mkResolverVk, resolveStep, keyTable, keyParam,
        keyName, hf, exbind_ok, exbind_err, expure]
  case users_events_role_id =>
    cases hf : fetchById rdb.users_events_roles kid with
    | none =>
      simp only [get_id, specResolve, mkResolverVk, resolveStep, keyTable, keyParam,
        keyName, hf, exbind_ok, exbind_err, expure]
      all_goals rfl
    | some eid =>
      cases eid <;>
        simp only [get_id, specResolve, mkResolverVk, resolveStep, keyTable, keyParam,
          keyName, hf, exbind_ok, exbind_err, expure]
  case access_code_id =>
    cases hf : fetchById rdb.access_codes kid <;>
      simp only [get_id, specResolve, mkResolverVk, resolveStep, keyTable, keyParam,
        keyName, hf, exbind_ok, exbind_err, expure]
  case speaker_id =>
    cases hf : fetchById rdb.speakers kid <;>
      simp only [get_id, specResolve, mkResolverVk, resolveStep, keyTable, keyParam,
        keyName, hf, exbind_ok, exbind_err, expure]
    all_goals rfl
  case email_notification_id =>
    cases hf : fetchById rdb.email_notifications kid <;>
      simp only [get_id, specResolve, mkResolverVk, resolveStep, keyTable, keyParam,
        keyName, hf, exbind_ok, exbind_err, expure]
    all_goals rfl
  case microlocation_id =>
    cases hf : fetchById rdb.microlocations kid <;>
      simp only [get_id, specResolve, mkResolverVk, resolveStep, keyTable, keyParam,
        keyName, hf, exbind_ok, exbind_err, expure]
    all_goals rfl
  case attendee_id =>
    cases hf : fetchById rdb.attendees kid <;>
      simp only [get_id, specResolve, mkResolverVk, resolveStep, keyTable, keyParam,
        keyName, hf, exbind_ok, exbind_err, expure]
  case custom_form_id =>
    cases hf : fetchById rdb.custom_forms kid <;>
      simp only [get_id, specResolve, mkResolverVk, resolveStep, keyTable, keyParam,
        keyName, hf, exbind_ok, exbind_err, expure]
  case faq_id =>
    cases hf : fetchById rdb.faqs kid <;>
      simp only [get_id, specResolve, mkResolverVk, resolveStep, keyTable, keyParam,
        keyName, hf, exbind_ok, exbind_err, expure]
  case feedback_id =>
    cases hf : fetchById rdb.feedbacks kid <;>
      simp only [get_id, specResolve, mkResolverVk, resolveStep, keyTable, keyParam,
        keyName, hf, exbind_ok, exbind_err, expure]

/-- A `view_kwargs` carrying only the `identifier` (event slug) key. -/
def mkIdentVk (ident : String) : ViewKwargs := { identifier := some ident }

/-- A `view_kwargs` carrying only the `event_invoice_identifier` key. -/
def mkInvoiceIdentVk (ident : String) : ViewKwargs :=
  { event_invoice_identifier := some ident }

/-- A `view_kwargs` carrying only the `order_identifier` key. -/
def mkOrderIdentVk (ident : String) : ViewKwargs :=
  { order_identifier := some ident }

/-- The resolver contract, from the spec's words, for the `identifier`
(event slug) branch: the slug "resolves directly" — fetch the event, raise
NotFound naming `identifier` on a miss, and set the resolved id to the
event's (non-null) primary id. -/
def specResolveSlug (rdb : ResolverDb) (ident : String) :
    Except ApiError ViewKwargs :=
  match (rdb.events_by_identifier.find? (fun p => p.1 == ident)).map (fun p => p.2) with
  | none => Except.error (ApiError.notFound "identifier"
      ("Event: " ++ ident ++ " not found"))
  | some eid => Except.ok { mkIdentVk ident with id := some (some eid) }

/-- The resolver contract for the `event_invoice_identifier` alternate-key
branch: fetch by the alternate key, NotFound naming the parameter on a miss,
resolved id set to the row's nullable owning-event reference. -/
def specResolveInvoiceIdent (rdb : ResolverDb) (ident : String) :
    Except ApiError ViewKwargs :=
  match fetchByIdent rdb.event_invoices_by_identifier ident with
  | none => Except.error (ApiError.notFound "event_invoice_identifier"
      ("EventInvoice: " ++ ident ++ " not found"))
  | some eid => Except.ok { mkInvoiceIdentVk ident with id := some eid }

/-- The resolver contract for the `order_identifier` alternate-key branch:
fetch by the alternate key, NotFound naming the parameter on a miss,
resolved id set to the row's nullable owning-event reference. -/
def specResolveOrderIdent (rdb : ResolverDb) (ident : String) :
    Except ApiError ViewKwargs :=
  match fetchByIdent rdb.orders_by_identifier ident with
  | none => Except.error (ApiError.notFound "order_identifier"
      ("Order: " ++ ident ++ " not found"))
  | some eid => Except.ok { mkOrderIdentVk ident with id := some eid }

set_option maxHeartbeats 1600000 in
/-- C3 amended: for every identifier key of the resolver table — the 25
numeric primary-key branches and the `identifier`, `event_invoice_identifier`
and `order_identifier` alternate-key branches — `get_id` fetches the
addressed sub-resource, raises NotFound naming the offending parameter when
it does not exist, and on a hit sets the resolved id to the row's (possibly
null) owning-event reference — uniformly across all branches EXCEPT
`users_events_role_id`, where a null owning-event reference leaves the
resolved id unchanged (`specResolve` and the three alternate-key contracts
state this). -/
theorem claim3_amended_resolver_contract :
    (∀ (k : ResolverKey) (rdb : ResolverDb) (kid : Nat),
      get_id rdb (mkResolverVk k kid) = specResolve rdb k kid)
    ∧ (∀ (rdb : ResolverDb) (ident : String),
      get_id rdb (mkIdentVk ident) = specResolveSlug rdb ident)
    ∧ (∀ (rdb : ResolverDb) (ident : String),
      get_id rdb (mkInvoiceIdentVk ident) = specResolveInvoiceIdent rdb ident)
    ∧ (∀ (rdb : ResolverDb) (ident : String),
      get_id rdb (mkOrderIdentVk ident) = specResolveOrderIdent rdb ident) := by
  refine ⟨fun k rdb kid => get_id_numeric_key_contract k rdb kid, ?_, ?_, ?_⟩
  · intro rdb ident
    cases hf : (rdb.events_by_identifier.find? (fun p => p.1 == ident)).map
        (fun p => p.2) <;>
      simp only [get_id, specResolveSlug, mkIdentVk, resolveStep, hf,
        exbind_ok, exbind_err, expure]
  · intro rdb ident
    cases hf : fetchByIdent rdb.event_invoices_by_identifier ident <;>
      simp only [get_id, specResolveInvoiceIdent, mkInvoiceIdentVk, resolveStep,
        hf, exbind_ok, exbind_err, expure]
  · intro rdb ident
    cases hf : fetchByIdent rdb.orders_by_identifier ident <;>
      simp only [get_id, specResolveOrderIdent, mkOrderIdentVk, resolveStep,
        hf, exbind_ok, exbind_err, expure]

end OpenEvent
